import Mathlib

/-!
Shallow embedding of the `fynesse` property-pricing pipeline
(source files `access.py`, `assess.py`, `address.py`, `database.py`).

Modelling conventions:
* DataFrame cells are `Value`s: strings, integer cells, rational cells
  (embedding Python floats), calendar dates (as integer day numbers),
  geometry points, `nan` (missing / not-a-number) and `inf` (the result
  of dividing a nonzero number by zero in pandas).
* Calendar dates are embedded as day numbers counted from 1970-01-01, so
  2018-01-01 = 17532 and 2023-01-01 = 19358.
* Python float square roots are embedded by `ratSqrt`, which is exact at
  `0` and on perfect squares; no claim inspects a square root away from
  those points.
* Python exceptions are the `PyError` inductive; fallible operations
  return `Except PyError`.
* The external database, the OpenStreetMap endpoint and the statsmodels
  fit are external collaborators: the first two are modelled by an `Env`
  record of their contents and reachability, the fit by a function
  parameter, since their internals are not part of this repository.
-/

/-- A single cell of a pandas DataFrame / GeoDataFrame. -/
inductive Value where
  | s (v : String)
  | i (v : Int)
  | q (v : Rat)
  | date (v : Int)
  | pt (lon lat : Rat)
  | nan
  | inf
deriving DecidableEq

/-- A DataFrame: named columns of cell lists, in insertion order. -/
structure Frame where
  cols : List (String × List Value)
deriving DecidableEq

/-- Find a column by name. -/
def colLookup (name : String) : List (String × List Value) → Option (List Value)
  | [] => none
  | c :: t => if c.1 = name then some c.2 else colLookup name t

/-- `df[name]`: the cells of a column (empty when the column is absent;
the schema validator checks presence separately). -/
def Frame.getCol (df : Frame) (name : String) : List Value :=
  (colLookup name df.cols).getD []

/-- Whether a column is present. -/
def Frame.hasCol (df : Frame) (name : String) : Bool :=
  (colLookup name df.cols).isSome

/-- Helper for `Frame.setCol`: replace the first column of the given
name, or append a fresh column at the end (pandas assignment). -/
def setColAux (name : String) (v : List Value) : List (String × List Value) → List (String × List Value)
  | [] => [(name, v)]
  | c :: t => if c.1 = name then (name, v) :: t else c :: setColAux name v t

/-- `df[name] = v`: column assignment. -/
def Frame.setCol (df : Frame) (name : String) (v : List Value) : Frame :=
  ⟨setColAux name v df.cols⟩

/-- `df.drop(name, axis=1)`. -/
def Frame.dropCol (df : Frame) (name : String) : Frame :=
  ⟨df.cols.filter (fun c => decide (c.1 ≠ name))⟩

/-- `df[names]`: column selection. -/
def Frame.selectCols (df : Frame) (names : List String) : Frame :=
  ⟨names.map (fun n => (n, df.getCol n))⟩

/-- Numeric view of a cell (ints and rationals; `nan` and non-numeric
cells have no numeric view). -/
def valToQ : Value → Option Rat
  | .i v => some (v : Rat)
  | .q v => some v
  | _ => none

/-- The numeric entries of a column, skipping `nan` and non-numeric
cells, as pandas reductions do with `skipna=True`. -/
def numsOf (col : List Value) : List Rat :=
  col.filterMap valToQ

/-- Mean of a list of rationals; `none` embeds the `NaN` that pandas
returns for an empty reduction. -/
def listMean (l : List Rat) : Option Rat :=
  if l.isEmpty then none else some (l.sum / (l.length : Rat))

/-- `Series.max()`. The empty case is unreachable in every claim (the
enrichment claims quantify over non-empty batches); `0` stands in for
pandas' `NaN` there. -/
def maxQ : List Rat → Rat
  | [] => 0
  | x :: xs => xs.foldl max x

/-- `Series.min()`, with the same empty-case convention as `maxQ`. -/
def minQ : List Rat → Rat
  | [] => 0
  | x :: xs => xs.foldl min x

/-- Embedding of the float square root: exact at `0` and on perfect
squares, a rational approximation elsewhere. Every claim that looks at
a square root only distinguishes zero from nonzero, which this function
preserves: `ratSqrt x = 0` iff `x ≤ 0`. -/
def ratSqrt (x : Rat) : Rat :=
  (Nat.sqrt (x.num.toNat * x.den) : Rat) / (x.den : Rat)

/-- The Python exceptions the embedded operations can raise.
`noPOIFoundError` is the error named by the specification; the
repository defines no such error and no embedded operation produces it —
it is present so that theorems can state exactly that. -/
inductive PyError where
  | connectionError
  | attributeError
  | schemaError (column : String)
  | noPOIFoundError
deriving DecidableEq

/-- One row of the joined `prices_coordinates_data` result, with exactly
the columns the join in `access.py` selects. -/
structure Record where
  price : Int
  date_of_transfer : Int
  postcode : String
  property_type : String
  new_build_flag : String
  tenure_type : String
  locality : Option String
  town_city : String
  district : Option String
  county : Option String
  country : String
  latitude : Rat
  longitude : Rat
  db_id : Int
deriving DecidableEq

/-- The fields of a `pp_data` row used by the join. -/
structure PPRow where
  price : Int
  date_of_transfer : Int
  postcode : String
  property_type : String
  new_build_flag : String
  tenure_type : String
  locality : Option String
  town_city : String
  district : Option String
  county : Option String
  db_id : Int
deriving DecidableEq

/-- The fields of a `postcode_data` row used by the join. -/
structure PCRow where
  postcode : String
  country : String
  latitude : Rat
  longitude : Rat
deriving DecidableEq

/-- The joined row built from a matching `pp_data`/`postcode_data` pair. -/
def mkRecord (p : PPRow) (c : PCRow) : Record :=
  { price := p.price
    date_of_transfer := p.date_of_transfer
    postcode := p.postcode
    property_type := p.property_type
    new_build_flag := p.new_build_flag
    tenure_type := p.tenure_type
    locality := p.locality
    town_city := p.town_city
    district := p.district
    county := p.county
    country := c.country
    latitude := c.latitude
    longitude := c.longitude
    db_id := p.db_id }

/-- The `INNER JOIN ... ON` of `join_region_prices_with_coordinates` in
`access.py`: postcodes must match exactly, `pc.latitude <= north`,
`pc.latitude >= south`, `pc.longitude <= east`, `pc.longitude >= west`,
`pp.date_of_transfer >= start_date` and `pp.date_of_transfer < end_date`. -/
def join_region_prices_with_coordinates (pp : List PPRow) (pc : List PCRow)
    (north south east west : Rat) (start_date end_date : Int) : List Record :=
  pp.flatMap (fun p => pc.filterMap (fun c =>
    if p.postcode = c.postcode ∧ c.latitude ≤ north ∧ south ≤ c.latitude ∧
        c.longitude ≤ east ∧ west ≤ c.longitude ∧
        start_date ≤ p.date_of_transfer ∧ p.date_of_transfer < end_date
    then some (mkRecord p c) else none))

/-- A nullable string cell. -/
def optS : Option String → Value
  | some v => .s v
  | none => .nan

/-- The GeoDataFrame that `access.data` builds from the joined rows,
including the geometry column derived from longitude/latitude. -/
def recordsToFrame (rs : List Record) : Frame :=
  ⟨[("price", rs.map (fun r => .i r.price)),
    ("date_of_transfer", rs.map (fun r => .date r.date_of_transfer)),
    ("postcode", rs.map (fun r => .s r.postcode)),
    ("property_type", rs.map (fun r => .s r.property_type)),
    ("new_build_flag", rs.map (fun r => .s r.new_build_flag)),
    ("tenure_type", rs.map (fun r => .s r.tenure_type)),
    ("locality", rs.map (fun r => optS r.locality)),
    ("town_city", rs.map (fun r => .s r.town_city)),
    ("district", rs.map (fun r => optS r.district)),
    ("county", rs.map (fun r => optS r.county)),
    ("country", rs.map (fun r => .s r.country)),
    ("latitude", rs.map (fun r => .q r.latitude)),
    ("longitude", rs.map (fun r => .q r.longitude)),
    ("db_id", rs.map (fun r => .i r.db_id)),
    ("geometry", rs.map (fun r => .pt r.longitude r.latitude))]⟩

/-- A shop point of interest as returned by the OSM endpoint. -/
structure POI where
  lat : Rat
  lon : Rat
  shop : Bool
deriving DecidableEq

/-- The result of the OSM query: the matching rows, and whether the
returned frame carries a geometry column (osmnx returns an empty frame
with no columns at all when nothing matches, so the requested
`geometry` key is then unavailable and gets dropped with a warning). -/
structure OSMFrame where
  rows : List POI
  hasGeometryCol : Bool
deriving DecidableEq

/-- The external world of one pipeline run: the database contents and
reachability, the OSM endpoint contents and reachability, and the
configured bounding-box half-width. -/
structure Env where
  storeUp : Bool
  pp_data : List PPRow
  postcode_data : List PCRow
  osmUp : Bool
  osm_pois : List POI
  training_bbox : Rat
deriving DecidableEq

/-- `database.create_connection`: the driver exception raised for an
unreachable store is caught, logged, and `None` is returned. -/
def create_connection (env : Env) : Option Unit :=
  if env.storeUp then some () else none

/-- `database.execute_query`: calling `.cursor()` on a `None` connection
raises `AttributeError`. -/
def execute_query (conn : Option Unit) : Except PyError Unit :=
  match conn with
  | some _ => .ok ()
  | none => .error .attributeError

/-- `access.data`: connect, run the join, read the joined table back as
a GeoDataFrame. -/
def data (env : Env) (north south east west : Rat)
    (start_date end_date : Int) : Except PyError Frame := do
  let conn := create_connection env
  let _ ← execute_query conn
  .ok (recordsToFrame (join_region_prices_with_coordinates
        env.pp_data env.postcode_data north south east west start_date end_date))

/-- Cell check for the `price` column: `Column(int, Check.in_range(0, 10e8))`;
pandera `in_range` includes both endpoints. -/
def checkPrice : Value → Bool
  | .i v => decide (0 ≤ v ∧ v ≤ 1000000000)
  | _ => false

/-- Cell check for `date_of_transfer`:
`Check.in_range(date(2018, 1, 1), date(2023, 1, 1))`, both endpoints
included, in the day-number embedding. -/
def checkDate : Value → Bool
  | .date v => decide (17532 ≤ v ∧ v ≤ 19358)
  | _ => false

/-- Cell check for a non-nullable string column. -/
def checkStr : Value → Bool
  | .s _ => true
  | _ => false

/-- Cell check for a nullable string column. -/
def checkStrNullable : Value → Bool
  | .s _ => true
  | .nan => true
  | _ => false

/-- Cell check for `postcode`: `Check.str_length(0, 8)`. -/
def checkPostcode : Value → Bool
  | .s v => decide (v.length ≤ 8)
  | _ => false

/-- Cell check for a categorical-domain column: `Check.isin(dom)`. -/
def checkIsin (dom : List String) : Value → Bool := fun v =>
  match v with
  | .s w => dom.contains w
  | _ => false

/-- Cell check for `latitude`: `Check.in_range(49, 61)`. -/
def checkLat : Value → Bool
  | .q v => decide (49 ≤ v ∧ v ≤ 61)
  | _ => false

/-- Cell check for `longitude`: `Check.in_range(-8, 2)`. -/
def checkLon : Value → Bool
  | .q v => decide (-8 ≤ v ∧ v ≤ 2)
  | _ => false

/-- Cell check for `db_id`: integer-typed (uniqueness is checked at
frame level). -/
def checkDbId : Value → Bool
  | .i _ => true
  | _ => false

/-- The pandera schema of `assess.py`, as per-column cell checks in
schema order. -/
def _prices_coordinates_data_schema : List (String × (Value → Bool)) :=
  [("price", checkPrice),
   ("date_of_transfer", checkDate),
   ("postcode", checkPostcode),
   ("property_type", checkIsin ["F", "S", "D", "T", "O"]),
   ("new_build_flag", checkIsin ["Y", "N"]),
   ("tenure_type", checkIsin ["F", "L"]),
   ("locality", checkStrNullable),
   ("town_city", checkStr),
   ("district", checkStrNullable),
   ("county", checkStrNullable),
   ("country", checkStr),
   ("latitude", checkLat),
   ("longitude", checkLon),
   ("db_id", checkDbId)]

/-- `assess.validate_prices_data`: the first schema column that is
missing or has a violating cell raises `SchemaError` naming that column;
then `db_id` uniqueness; on success the frame itself is returned. -/
def validate_prices_data (df : Frame) : Except PyError Frame :=
  match _prices_coordinates_data_schema.find?
      (fun c => !(df.hasCol c.1 && (df.getCol c.1).all c.2)) with
  | some c => .error (.schemaError c.1)
  | none =>
    if (df.getCol "db_id").Nodup then .ok df
    else .error (.schemaError "db_id")

/-- The category list that `astype('category')` derives from a string
column: the distinct observed values in sorted (lexicographic) order. -/
def categories (col : List String) : List String :=
  (col.dedup).insertionSort (fun a b => a ≤ b)

/-- `.cat.codes`: each value's index in the sorted category list. -/
def cat_codes (col : List String) : List Int :=
  col.map (fun v => ((categories col).indexOf v : Int))

/-- String view of a cell. The source only encodes string-typed columns;
the default is never reached under the claims' hypotheses. -/
def valToStr : Value → String
  | .s v => v
  | _ => ""

/-- Ordinal encoding of one column. -/
def encodeColumn (col : List Value) : List Value :=
  (cat_codes (col.map valToStr)).map (fun n => .i n)

/-- One iteration of the loop body of `encode_categorical_features`. -/
def encodeStep (d : Frame) (feature : String) : Frame :=
  d.setCol feature (encodeColumn (d.getCol feature))

/-- `assess.encode_categorical_features` (value semantics; the
copy-then-mutate aliasing behaviour is modelled separately below). -/
def encode_categorical_features (df : Frame) (features : List String) : Frame :=
  features.foldl encodeStep df

/-- `normalised_df[feature] -= normalised_df[feature].mean()`: pandas
skips `nan` when computing the mean, and subtraction propagates `nan`
cellwise (the mean of an all-`nan` column is itself `NaN`). -/
def centerCol (col : List Value) : List Value :=
  match listMean (numsOf col) with
  | none => col.map (fun _ => Value.nan)
  | some m => col.map (fun v =>
      match valToQ v with
      | some a => Value.q (a - m)
      | none => Value.nan)

/-- `Series.std()`: sample standard deviation (`ddof=1`) over the
non-`nan` entries; `NaN` (here `none`) when fewer than two remain. -/
def sampleStd (col : List Value) : Option Rat :=
  let xs := numsOf col
  if xs.length ≤ 1 then none
  else
    let m := xs.sum / (xs.length : Rat)
    some (ratSqrt ((xs.map (fun x => (x - m) ^ 2)).sum / ((xs.length : Rat) - 1)))

/-- `normalised_df[feature] /= std`: division by a `NaN` or zero standard
deviation produces `nan` (`0/0`) or `inf` (nonzero over zero) cellwise,
exactly as pandas floats do; no exception is raised. -/
def divideCol (col : List Value) (std : Option Rat) : List Value :=
  match std with
  | none => col.map (fun _ => Value.nan)
  | some st =>
    if st = 0 then
      col.map (fun v =>
        match valToQ v with
        | some a => if a = 0 then Value.nan else Value.inf
        | none => Value.nan)
    else
      col.map (fun v =>
        match valToQ v with
        | some a => Value.q (a / st)
        | none => Value.nan)

/-- One iteration of the loop body of `normalise_numerical_features`:
center the column, then divide it by its (post-centering) standard
deviation, as the source does. -/
def normaliseStep (df : Frame) (feature : String) : Frame :=
  let centered := centerCol (df.getCol feature)
  df.setCol feature (divideCol centered (sampleStd centered))

/-- `assess.normalise_numerical_features` (value semantics). -/
def normalise_numerical_features (df : Frame) (features : List String) : Frame :=
  features.foldl normaliseStep df

/-- The tag filter of `get_osm_pois` at its only call site
(`tags = {'shop': True}`), combined with the covering bounding box of
the input frame, padded by the fixed 0.01-degree margin on each side. -/
def poiMatches (df : Frame) (p : POI) : Bool :=
  let north := maxQ (numsOf (df.getCol "latitude")) + 0.01
  let south := minQ (numsOf (df.getCol "latitude")) - 0.01
  let east := maxQ (numsOf (df.getCol "longitude")) + 0.01
  let west := minQ (numsOf (df.getCol "longitude")) - 0.01
  p.shop && decide (south ≤ p.lat ∧ p.lat ≤ north ∧ west ≤ p.lon ∧ p.lon ≤ east)

/-- `access.get_osm_pois`, specialised to its only call site:
`tags = {'shop': True}` and `keys = ['geometry']`. When zero elements
match, osmnx returns an empty GeoDataFrame with no columns, so the
requested `geometry` key is unavailable: it is dropped after a logged
warning and the returned frame has no geometry column. -/
def get_osm_pois (env : Env) (df : Frame) : Except PyError OSMFrame :=
  if env.osmUp then
    let pois := env.osm_pois.filter (poiMatches df)
    .ok ⟨pois, !pois.isEmpty⟩
  else .error .connectionError

/-- Planar distance, in degrees, between an input point and a POI — the
distance `sjoin_nearest` reports for the frame's coordinate values. -/
def pointDistance (la lo : Rat) (p : POI) : Rat :=
  ratSqrt ((p.lat - la) ^ 2 + (p.lon - lo) ^ 2)

/-- The nearest-POI distance for one input point (a tie may resolve to
either POI — both give the same minimal distance). -/
def nearestDistance (pois : List POI) (la lo : Rat) : Value :=
  match pois with
  | [] => .nan
  | p :: ps => .q (ps.foldl (fun acc p2 => min acc (pointDistance la lo p2)) (pointDistance la lo p))

/-- The `distance_to_shop` column produced by the nearest join. -/
def distanceColumn (df : Frame) (pois : List POI) : List Value :=
  ((df.getCol "latitude").zip (df.getCol "longitude")).map (fun c =>
    match valToQ c.1, valToQ c.2 with
    | some la, some lo => nearestDistance pois la lo
    | _, _ => .nan)

/-- `access.attach_shop_distances`: fetch POIs, then `sjoin_nearest`.
`sjoin_nearest` requires its right frame to carry a geometry column and
raises `AttributeError` otherwise (the zero-POI case); the final drop of
the `index_right0`/`index_right1` bookkeeping columns is a no-op here. -/
def attach_shop_distances (env : Env) (df : Frame) : Except PyError Frame := do
  let pois ← get_osm_pois env df
  if pois.hasGeometryCol then
    .ok (df.setCol "distance_to_shop" (distanceColumn df pois.rows))
  else
    .error .attributeError

/-- `address._TRAINING_FEATURES`. -/
def _TRAINING_FEATURES : List String :=
  ["price", "property_type", "latitude", "longitude", "distance_to_shop"]

/-- `address._CATEGORICAL_FEATURES`. -/
def _CATEGORICAL_FEATURES : List String :=
  ["property_type"]

/-- A trained model, as its prediction behaviour on a feature frame. -/
def Model : Type := Frame → List Rat

/-- `address.train_model`: `y = df['price']`, `x = df.drop('price')`,
then the statsmodels regularized fit — an external collaborator, passed
in as `fitImpl`. -/
def train_model (fitImpl : Frame → Frame → Model) (df : Frame) : Model :=
  fitImpl (df.selectCols ["price"]) (df.dropCol "price")

/-- `address.validate_model`: mean absolute error of the model on the
validation partition (`none` embeds the `NaN` mean of an empty frame). -/
def validate_model (trained : Model) (df : Frame) : Option Rat :=
  let y := numsOf (df.getCol "price")
  let predictions := trained (df.dropCol "price")
  listMean ((y.zip predictions).map (fun c => |c.1 - c.2|))

/-- The warning text logged when the validation error is large (the
source interpolates the numeric value into the message). -/
def maeWarning : String := "MSE on validation data is high"

/-- The `mae > 10000` test; a `NaN` mean compares false. -/
def maeExceeds (mae : Option Rat) : Bool :=
  match mae with
  | some v => decide (v > 10000)
  | none => false

/-- `address.training_data`: bbox of configured half-width around the
query point, ±24 weeks (168 days) around the query date, then
fetch → validate (result discarded, errors propagate) → enrich →
select training columns → ordinal-encode. -/
def training_data (env : Env) (latitude longitude : Rat) (date : Int) :
    Except PyError Frame := do
  let north := latitude + env.training_bbox
  let south := latitude - env.training_bbox
  let east := longitude + env.training_bbox
  let west := longitude - env.training_bbox
  let df ← data env north south east west (date - 168) (date + 168)
  let _ ← validate_prices_data df
  let df2 ← attach_shop_distances env df
  .ok (encode_categorical_features (df2.selectCols _TRAINING_FEATURES) _CATEGORICAL_FEATURES)

/-- The single-row query frame `make_prediction` constructs. -/
def query_frame (latitude longitude : Rat) (property_type : String) : Frame :=
  ⟨[("property_type", [.s property_type]),
    ("latitude", [.q latitude]),
    ("longitude", [.q longitude]),
    ("geometry", [.pt longitude latitude])]⟩

/-- `address.make_prediction`: build the one-row query frame, ordinal-
encode it (from its own single observed category), enrich it with the
shop distance, drop the geometry column and apply the trained model. -/
def make_prediction (env : Env) (trained : Model) (latitude longitude : Rat)
    (property_type : String) : Except PyError Rat := do
  let df := query_frame latitude longitude property_type
  let df2 := encode_categorical_features df _CATEGORICAL_FEATURES
  let dfs ← attach_shop_distances env df2
  .ok ((trained (dfs.dropCol "geometry")).headD 0)

/-- `address.predict_price`: build the training frame, split it (the
random `train_test_split` is an external collaborator, passed in as
`split`), fit, compute the validation MAE, log a warning when it exceeds
10000 — and predict regardless. The returned pair carries the prediction
and the list of logged warnings. -/
def predict_price (env : Env) (split : Frame → Frame × Frame)
    (fitImpl : Frame → Frame → Model) (latitude longitude : Rat) (date : Int)
    (property_type : String) : Except PyError (Rat × List String) := do
  let d ← training_data env latitude longitude date
  let parts := split d
  let trained := train_model fitImpl parts.1
  let mae := validate_model trained parts.2
  let warnings := if maeExceeds mae then [maeWarning] else []
  let p ← make_prediction env trained latitude longitude property_type
  .ok (p, warnings)

/-- The empty frame (the default for reads of unallocated addresses). -/
def emptyFrame : Frame := ⟨[]⟩

/-- A heap of Python DataFrame objects, for stating aliasing facts about
the copy-then-mutate pattern. -/
structure PyHeap where
  frames : List Frame
deriving DecidableEq

/-- Read the frame object at an address. -/
def PyHeap.get (h : PyHeap) (a : Nat) : Frame :=
  h.frames.getD a emptyFrame

/-- Mutate the frame object at an address in place. -/
def PyHeap.set (h : PyHeap) (a : Nat) (f : Frame) : PyHeap :=
  ⟨h.frames.set a f⟩

/-- Allocate a fresh frame object (`df.copy()` allocates) and return its
address. -/
def PyHeap.alloc (h : PyHeap) (f : Frame) : PyHeap × Nat :=
  (⟨h.frames ++ [f]⟩, h.frames.length)

/-- The mutation loop shared by both assess functions: each iteration
reassigns one column of the object at address `a` in place. -/
def mutateLoop (step : Frame → String → Frame) (features : List String)
    (h : PyHeap) (a : Nat) : PyHeap :=
  features.foldl (fun hh f => hh.set a (step (hh.get a) f)) h

/-- `assess.encode_categorical_features` at the object level:
`encoded_df = df.copy()` allocates a fresh object, the loop mutates only
that object, and its address is returned. -/
def encode_categorical_features_state (h : PyHeap) (df : Nat)
    (features : List String) : PyHeap × Nat :=
  let alloc := h.alloc (h.get df)
  (mutateLoop encodeStep features alloc.1 alloc.2, alloc.2)

/-- `assess.normalise_numerical_features` at the object level, with the
same copy-then-mutate shape. -/
def normalise_numerical_features_state (h : PyHeap) (df : Nat)
    (features : List String) : PyHeap × Nat :=
  let alloc := h.alloc (h.get df)
  (mutateLoop normaliseStep features alloc.1 alloc.2, alloc.2)

/-! Concrete fixtures used by the witnesses and counterexamples below. -/

/-- A conforming record: price 250000, property_type "D", latitude 52.2,
longitude 0.12, transfer date inside the accepted window, all other
columns conforming. -/
def baseRec : Record :=
  { price := 250000
    date_of_transfer := 18000
    postcode := "CB2 1TN"
    property_type := "D"
    new_build_flag := "N"
    tenure_type := "F"
    locality := none
    town_city := "Cambridge"
    district := none
    county := none
    country := "England"
    latitude := 52.2
    longitude := 0.12
    db_id := 1 }

/-- The conforming record with a chosen price. -/
def priceRec (p : Int) : Record :=
  { price := p
    date_of_transfer := 18000
    postcode := "CB2 1TN"
    property_type := "D"
    new_build_flag := "N"
    tenure_type := "F"
    locality := none
    town_city := "Cambridge"
    district := none
    county := none
    country := "England"
    latitude := 52.2
    longitude := 0.12
    db_id := 1 }

/-- A price-paid row for a concrete pipeline run. -/
def ppW : PPRow :=
  { price := 250000
    date_of_transfer := 19000
    postcode := "A"
    property_type := "D"
    new_build_flag := "N"
    tenure_type := "F"
    locality := none
    town_city := "T"
    district := none
    county := none
    db_id := 1 }

/-- The postcode row matching `ppW`. -/
def pcW : PCRow :=
  { postcode := "A"
    country := "England"
    latitude := 52
    longitude := 0 }

/-- A shop POI at the `pcW` coordinates. -/
def poiW : POI := { lat := 52, lon := 0, shop := true }

/-- A reachable world with one joinable sale and one nearby shop. -/
def envW : Env :=
  { storeUp := true
    pp_data := [ppW]
    postcode_data := [pcW]
    osmUp := true
    osm_pois := [poiW]
    training_bbox := 1 }

/-- A world whose backing store is unreachable. -/
def envDown : Env :=
  { storeUp := false
    pp_data := []
    postcode_data := []
    osmUp := true
    osm_pois := []
    training_bbox := 1 }

/-- A one-point batch to enrich. -/
def dfC3 : Frame := Frame.mk [("latitude", [Value.q 52]), ("longitude", [Value.q 0])]

/-- A world with a reachable OSM endpoint and no POIs at all. -/
def envC3w : Env :=
  { storeUp := true
    pp_data := []
    postcode_data := []
    osmUp := true
    osm_pois := []
    training_bbox := 1 }

/-- A world whose only POI is not a shop, so the tag filter matches
nothing. -/
def envC3c : Env :=
  { storeUp := true
    pp_data := []
    postcode_data := []
    osmUp := true
    osm_pois := [{ lat := 52, lon := 0, shop := false }]
    training_bbox := 1 }

/-- A deterministic stand-in for the random `train_test_split`. -/
def splitW : Frame → Frame × Frame := fun d => (d, d)

/-- A stand-in for the statsmodels fit: the fitted model predicts 0. -/
def fitW : Frame → Frame → Model := fun _ _ _ => [0]

/-- The training frame `training_data envW 52 0 19000` produces. -/
def dfW : Frame :=
  Frame.mk [("price", [Value.i 250000]), ("property_type", [Value.i 0]),
    ("latitude", [Value.q 52]), ("longitude", [Value.q 0]),
    ("distance_to_shop", [Value.q 0])]

/-- The enriched frame after column selection, before encoding. -/
def dfSel : Frame :=
  Frame.mk [("price", [Value.i 250000]), ("property_type", [Value.s "D"]),
    ("latitude", [Value.q 52]), ("longitude", [Value.q 0]),
    ("distance_to_shop", [Value.q 0])]

/-- The encoded query frame built inside `make_prediction envW _ 52 0 "D"`. -/
def qF : Frame :=
  Frame.mk [("property_type", [Value.i 0]), ("latitude", [Value.q 52]),
    ("longitude", [Value.q 0]), ("geometry", [Value.pt 0 52])]

/-! Frame-access lemmas. -/

theorem colLookup_setColAux_self (n : String) (v : List Value) (l : List (String × List Value)) :
    colLookup n (setColAux n v l) = some v := by
  induction l with
  | nil => simp [setColAux, colLookup]
  | cons c t ih =>
    by_cases h : c.1 = n
    · simp [setColAux, h, colLookup]
    · simp [setColAux, h, colLookup, ih]

theorem getCol_setCol_self (df : Frame) (n : String) (v : List Value) :
    (df.setCol n v).getCol n = v := by
  simp [Frame.getCol, Frame.setCol, colLookup_setColAux_self]

theorem colLookup_setColAux_ne (n m : String) (hnm : n ≠ m) (v : List Value)
    (l : List (String × List Value)) :
    colLookup m (setColAux n v l) = colLookup m l := by
  induction l with
  | nil => simp [setColAux, colLookup, hnm]
  | cons c t ih =>
    by_cases h : c.1 = n
    · simp [setColAux, h, colLookup, hnm, Ne.symm hnm]
    · simp [setColAux, h, colLookup, ih]

theorem getCol_setCol_ne (df : Frame) (n m : String) (hnm : n ≠ m) (v : List Value) :
    (df.setCol n v).getCol m = df.getCol m := by
  simp [Frame.getCol, Frame.setCol, colLookup_setColAux_ne n m hnm]

/-! Category-encoding lemmas: `categories` is the sorted list of the
distinct observed values, and a value's code is the number of distinct
observed values lexicographically below it. -/

theorem categories_sorted (col : List String) :
    (categories col).Sorted (fun a b => a ≤ b) :=
  List.sorted_insertionSort _ _

theorem categories_perm_dedup (col : List String) : List.Perm (categories col) col.dedup :=
  List.perm_insertionSort _ _

theorem categories_nodup (col : List String) : (categories col).Nodup :=
  (categories_perm_dedup col).nodup_iff.mpr col.nodup_dedup

theorem mem_categories (col : List String) (v : String) : v ∈ categories col ↔ v ∈ col := by
  rw [(categories_perm_dedup col).mem_iff, List.mem_dedup]

theorem sorted_indexOf_eq_length_filter_lt :
    ∀ (l : List String), l.Sorted (fun a b => a ≤ b) → l.Nodup →
      ∀ v ∈ l, l.indexOf v = (l.filter (fun w => decide (w < v))).length := by
  intro l
  induction l with
  | nil => simp
  | cons a t ih =>
    intro hs hn v hv
    rw [List.sorted_cons] at hs
    obtain ⟨ha, hs⟩ := hs
    rw [List.nodup_cons] at hn
    obtain ⟨hna, hn⟩ := hn
    rcases List.mem_cons.mp hv with h | h
    · subst h
      have ht : t.filter (fun w => decide (w < v)) = [] := by
        rw [List.filter_eq_nil_iff]
        intro w hw
        simp only [decide_eq_true_eq]
        exact not_lt_of_le (ha w hw)
      rw [List.indexOf_cons_self, List.filter_cons]
      simp only [decide_eq_true_eq, lt_self_iff_false, if_false, ht, List.length_nil]
    · have hav : a ≠ v := fun hEq => hna (hEq ▸ h)
      have h1 : a < v := lt_of_le_of_ne (ha v h) hav
      rw [List.indexOf_cons_ne _ hav, List.filter_cons]
      simp only [decide_eq_true_eq, h1, if_true, List.length_cons, ih hs hn v h]

theorem categories_indexOf_eq_rank (col : List String) (v : String) (hv : v ∈ col) :
    ((categories col).indexOf v : Int) =
      ((col.dedup.filter (fun w => decide (w < v))).length : Int) := by
  have h1 := sorted_indexOf_eq_length_filter_lt (categories col) (categories_sorted col)
    (categories_nodup col) v ((mem_categories col v).mpr hv)
  have h2 : List.Perm ((categories col).filter (fun w => decide (w < v)))
      (col.dedup.filter (fun w => decide (w < v))) :=
    (categories_perm_dedup col).filter _
  rw [h1, h2.length_eq]

theorem categories_eq_of_mem_iff (col col2 : List String)
    (hmem : ∀ v, v ∈ col ↔ v ∈ col2) : categories col = categories col2 := by
  have hperm : List.Perm col.dedup col2.dedup := by
    rw [List.perm_ext_iff_of_nodup col.nodup_dedup col2.nodup_dedup]
    intro a
    rw [List.mem_dedup, List.mem_dedup]
    exact hmem a
  exact List.eq_of_perm_of_sorted
    ((categories_perm_dedup col).trans (hperm.trans (categories_perm_dedup col2).symm))
    (categories_sorted col) (categories_sorted col2)

/-! Normalisation lemmas for a constant (zero-variance) column. -/

theorem ratSqrt_zero : ratSqrt 0 = 0 := by
  norm_num [ratSqrt]

theorem numsOf_replicate_q (n : Nat) (c : Rat) :
    numsOf (List.replicate n (Value.q c)) = List.replicate n c := by
  induction n with
  | zero => rfl
  | succ k ih =>
    simp only [List.replicate_succ, numsOf, List.filterMap_cons, valToQ] at ih ⊢
    rw [ih]

theorem listMean_replicate (n : Nat) (hn : 1 ≤ n) (c : Rat) :
    listMean (List.replicate n c) = some c := by
  have hne : (n : Rat) ≠ 0 := by positivity
  have h0 : n ≠ 0 := by omega
  simp [listMean, List.sum_replicate, nsmul_eq_mul, h0, List.isEmpty_iff, hne,
    mul_div_assoc, div_self]

theorem centerCol_replicate (n : Nat) (hn : 1 ≤ n) (c : Rat) :
    centerCol (List.replicate n (Value.q c)) = List.replicate n (Value.q 0) := by
  rw [centerCol, numsOf_replicate_q, listMean_replicate n hn c]
  simp [valToQ, List.map_replicate]

theorem sampleStd_replicate_zero (n : Nat) (hn : 2 ≤ n) :
    sampleStd (List.replicate n (Value.q 0)) = some 0 := by
  rw [sampleStd]
  simp only [numsOf_replicate_q, List.length_replicate]
  have h1 : ¬(n ≤ 1) := by omega
  simp only [h1, if_false]
  simp [List.sum_replicate, List.map_replicate, ratSqrt_zero]

theorem divideCol_replicate_zero (n : Nat) :
    divideCol (List.replicate n (Value.q 0)) (some 0) = List.replicate n Value.nan := by
  simp [divideCol, valToQ, List.map_replicate]

theorem normaliseStep_const_col (df : Frame) (f : String) (c : Rat) (n : Nat) (hn : 2 ≤ n)
    (hcol : df.getCol f = List.replicate n (Value.q c)) :
    (normaliseStep df f).getCol f = List.replicate n Value.nan := by
  rw [normaliseStep, getCol_setCol_self, hcol, centerCol_replicate n (by omega) c,
    sampleStd_replicate_zero n hn, divideCol_replicate_zero]

theorem foldl_normaliseStep_not_mem (fs : List String) (f : String) (hf : ¬ f ∈ fs) :
    ∀ d : Frame, (fs.foldl normaliseStep d).getCol f = d.getCol f := by
  induction fs with
  | nil => intro d; rfl
  | cons g t ih =>
    intro d
    rw [List.mem_cons, not_or] at hf
    rw [List.foldl_cons, ih hf.2, normaliseStep, getCol_setCol_ne _ g f (Ne.symm hf.1)]

/-! Object-heap lemmas for the copy-then-mutate pattern. -/

theorem PyHeap_get_set_ne (h : PyHeap) (a b : Nat) (hab : a ≠ b) (f : Frame) :
    (h.set a f).get b = h.get b := by
  simp [PyHeap.get, PyHeap.set, List.getD, List.getElem?_set_ne hab]

theorem PyHeap_get_set_self (h : PyHeap) (a : Nat) (ha : a < h.frames.length) (f : Frame) :
    (h.set a f).get a = f := by
  simp [PyHeap.get, PyHeap.set, List.getD, List.getElem?_set_self, ha]

theorem PyHeap_get_append (h : PyHeap) (a : Nat) (ha : a < h.frames.length) (f : Frame) :
    (PyHeap.mk (h.frames ++ [f])).get a = h.get a := by
  simp [PyHeap.get, List.getD, List.getElem?_append_left ha]

theorem mutateLoop_get_ne (step : Frame → String → Frame) (fs : List String)
    (a b : Nat) (hab : a ≠ b) : ∀ h : PyHeap, (mutateLoop step fs h a).get b = h.get b := by
  induction fs with
  | nil => intro h; rfl
  | cons g t ih =>
    intro h
    rw [mutateLoop, List.foldl_cons, ← mutateLoop, ih, PyHeap_get_set_ne h a b hab]

theorem PyHeap_set_length (h : PyHeap) (a : Nat) (f : Frame) :
    (h.set a f).frames.length = h.frames.length := by
  simp [PyHeap.set]

theorem mutateLoop_get_self (step : Frame → String → Frame) (fs : List String) (a : Nat) :
    ∀ h : PyHeap, a < h.frames.length →
      (mutateLoop step fs h a).get a = fs.foldl step (h.get a) := by
  induction fs with
  | nil => intro h _; rfl
  | cons g t ih =>
    intro h ha
    rw [mutateLoop, List.foldl_cons, ← mutateLoop, List.foldl_cons]
    have ha2 : a < (h.set a (step (h.get a) g)).frames.length := by
      rw [PyHeap_set_length]; exact ha
    rw [ih _ ha2, PyHeap_get_set_self h a ha]

/-! Evaluation of one concrete pipeline run over `envW`. -/

theorem join_envW :
    join_region_prices_with_coordinates [ppW] [pcW] 53 51 1 (-1) 18832 19168
      = [mkRecord ppW pcW] := by decide

theorem validate_envW :
    validate_prices_data (recordsToFrame [mkRecord ppW pcW])
      = .ok (recordsToFrame [mkRecord ppW pcW]) := by
  have hLat52 : checkLat (Value.q 52) = true := by
    simp only [checkLat, decide_eq_true_eq]
    norm_num
  have hLon0 : checkLon (Value.q 0) = true := by
    simp only [checkLon, decide_eq_true_eq]
    norm_num
  have hPostA : checkPostcode (Value.s "A") = true := by decide
  simp [validate_prices_data, _prices_coordinates_data_schema, mkRecord, ppW, pcW,
    recordsToFrame, Frame.getCol, Frame.hasCol, colLookup, checkPrice, checkDate,
    checkIsin, checkStr, checkStrNullable, checkDbId, optS,
    hLat52, hLon0, hPostA, List.find?]

theorem poiMatches_envW : poiMatches (recordsToFrame [mkRecord ppW pcW]) poiW = true := by
  simp [poiMatches, recordsToFrame, mkRecord, ppW, pcW, poiW, Frame.getCol, colLookup,
    numsOf, valToQ, maxQ, minQ]
  norm_num

theorem dist_poiW : pointDistance 52 0 poiW = 0 := by
  rw [pointDistance]
  norm_num [poiW]
  exact ratSqrt_zero

theorem lat_envW : (recordsToFrame [mkRecord ppW pcW]).getCol "latitude" = [Value.q 52] := by
  decide

theorem lon_envW : (recordsToFrame [mkRecord ppW pcW]).getCol "longitude" = [Value.q 0] := by
  decide

theorem attach_envW :
    attach_shop_distances envW (recordsToFrame [mkRecord ppW pcW])
      = .ok ((recordsToFrame [mkRecord ppW pcW]).setCol "distance_to_shop" [Value.q 0]) := by
  have hup : envW.osmUp = true := rfl
  have hpois : envW.osm_pois = [poiW] := rfl
  simp [attach_shop_distances, get_osm_pois, hup, hpois, poiMatches_envW, distanceColumn,
    lat_envW, lon_envW, valToQ, nearestDistance, dist_poiW, Bind.bind, Except.bind]

theorem select_envW :
    ((recordsToFrame [mkRecord ppW pcW]).setCol "distance_to_shop"
      [Value.q 0]).selectCols _TRAINING_FEATURES = dfSel := by decide

theorem encode_envW : encode_categorical_features dfSel _CATEGORICAL_FEATURES = dfW := by decide

theorem dfW_training : training_data envW 52 0 19000 = .ok dfW := by
  have e1 : (52 : Rat) + envW.training_bbox = 53 := by norm_num [envW]
  have e2 : (52 : Rat) - envW.training_bbox = 51 := by norm_num [envW]
  have e3 : (0 : Rat) + envW.training_bbox = 1 := by norm_num [envW]
  have e4 : (0 : Rat) - envW.training_bbox = -1 := by norm_num [envW]
  have hdata : data envW 53 51 1 (-1) (19000 - 168) (19000 + 168)
      = .ok (recordsToFrame [mkRecord ppW pcW]) := by
    norm_num [data, create_connection, execute_query, envW, join_envW, Bind.bind, Except.bind]
  rw [training_data, e1, e2, e3, e4, hdata]
  simp only [Bind.bind, Except.bind]
  rw [validate_envW]
  simp only []
  rw [attach_envW]
  simp only []
  rw [select_envW, encode_envW]

theorem encode_query_envW :
    encode_categorical_features (query_frame 52 0 "D") _CATEGORICAL_FEATURES = qF := by decide

theorem qF_lat : qF.getCol "latitude" = [Value.q 52] := by decide

theorem qF_lon : qF.getCol "longitude" = [Value.q 0] := by decide

theorem poiMatches_qF : poiMatches qF poiW = true := by
  simp [poiMatches, qF_lat, qF_lon, numsOf, valToQ, maxQ, minQ, poiW]
  norm_num

theorem attach_qF :
    attach_shop_distances envW qF = .ok (qF.setCol "distance_to_shop" [Value.q 0]) := by
  have hup : envW.osmUp = true := rfl
  have hpois : envW.osm_pois = [poiW] := rfl
  simp [attach_shop_distances, get_osm_pois, hup, hpois, poiMatches_qF, distanceColumn,
    qF_lat, qF_lon, valToQ, nearestDistance, dist_poiW, Bind.bind, Except.bind]

theorem predict_envW :
    make_prediction envW (train_model fitW (splitW dfW).1) 52 0 "D" = .ok 0 := by
  rw [make_prediction, encode_query_envW, attach_qF]
  simp [train_model, fitW, splitW, Bind.bind, Except.bind]

theorem mae_envW :
    maeExceeds (validate_model (train_model fitW (splitW dfW).1) (splitW dfW).2) = true := by
  have hy : dfW.getCol "price" = [Value.i 250000] := by decide
  simp [maeExceeds, validate_model, splitW, train_model, fitW, hy, numsOf, valToQ, listMean]
  norm_num

theorem training_envDown : training_data envDown 52 0 19000 = .error .attributeError := by
  simp [training_data, data, envDown, create_connection, execute_query, Bind.bind, Except.bind]

/-! The claims. -/

/-- Claim C1 (settled against the code, which contradicts it): the
PREDICT phase does not reuse the training run's category-to-code
mapping. `make_prediction` re-encodes its one-row query frame from that
frame's own single observed category, so the query row always receives
code 0, while the same category observed among training values {"S","D"}
received code 1. -/
theorem prediction_encoding_mismatch :
    (encode_categorical_features (query_frame 52 0 "S") _CATEGORICAL_FEATURES).getCol
        "property_type" = [Value.i 0] ∧
    (encode_categorical_features (Frame.mk [("property_type", [Value.s "S", Value.s "D"])])
        _CATEGORICAL_FEATURES).getCol "property_type" = [Value.i 1, Value.i 0] := by
  constructor
  · simp [encode_categorical_features, _CATEGORICAL_FEATURES, encodeStep, encodeColumn,
      cat_codes, categories, valToStr, query_frame, Frame.getCol, Frame.setCol, colLookup,
      setColAux, List.insertionSort, List.orderedInsert, List.dedup, List.pwFilter]
  · simp [encode_categorical_features, _CATEGORICAL_FEATURES, encodeStep, encodeColumn,
      cat_codes, categories, valToStr, Frame.getCol, Frame.setCol, colLookup,
      setColAux, List.insertionSort, List.orderedInsert, List.dedup, List.pwFilter]
    decide

/-- Claim C2: for every bounding box with north ≥ south and east ≥ west
and every half-open date interval, every record the fetch join returns
has latitude in [south, north], longitude in [west, east] (inclusive)
and date_of_transfer in [start_date, end_date) (start inclusive, end
exclusive). -/
theorem fetched_records_within_bounds (pp : List PPRow) (pc : List PCRow)
    (north south east west : Rat) (start_date end_date : Int)
    (hns : south ≤ north) (hew : west ≤ east) :
    ∀ r ∈ join_region_prices_with_coordinates pp pc north south east west start_date end_date,
      south ≤ r.latitude ∧ r.latitude ≤ north ∧ west ≤ r.longitude ∧ r.longitude ≤ east ∧
      start_date ≤ r.date_of_transfer ∧ r.date_of_transfer < end_date := by
  intro r hr
  simp only [join_region_prices_with_coordinates, List.mem_flatMap, List.mem_filterMap] at hr
  obtain ⟨p, hp, c, hc, heq⟩ := hr
  split at heq
  case isTrue h =>
    obtain ⟨-, h1, h2, h3, h4, h5, h6⟩ := h
    injection heq with heq2
    subst heq2
    simp only [mkRecord]
    exact ⟨h2, h1, h4, h3, h5, h6⟩
  case isFalse h =>
    exact absurd heq (by simp)

/-- Claim C2 witness: a concrete join result sits inside its requested
bounds. -/
theorem fetched_records_within_bounds_witness :
    (51 : Rat) ≤ (mkRecord ppW pcW).latitude ∧ (mkRecord ppW pcW).latitude ≤ 53 ∧
    (-1 : Rat) ≤ (mkRecord ppW pcW).longitude ∧ (mkRecord ppW pcW).longitude ≤ 1 ∧
    (18832 : Int) ≤ (mkRecord ppW pcW).date_of_transfer ∧
    (mkRecord ppW pcW).date_of_transfer < 19168 :=
  fetched_records_within_bounds [ppW] [pcW] 53 51 1 (-1) 18832 19168
    (by norm_num) (by norm_num) (mkRecord ppW pcW)
    (by norm_num [join_region_prices_with_coordinates, ppW, pcW])

/-- Claim C3 as amended: for a non-empty batch, when zero POIs match the
shop filter inside the padded covering box, the enrichment does fail —
but with the modelled `AttributeError` that `sjoin_nearest` raises on a
right frame with no geometry column, not with `NoPOIFoundError`, which
the repository never defines. -/
theorem attach_zero_pois_attribute_error (env : Env) (df : Frame)
    (hosm : env.osmUp = true)
    (hne : df.getCol "latitude" ≠ [])
    (hempty : env.osm_pois.filter (poiMatches df) = []) :
    attach_shop_distances env df = .error .attributeError := by
  simp [attach_shop_distances, get_osm_pois, hosm, hempty, Bind.bind, Except.bind]

/-- Claim C3 witness: a concrete one-point batch with an empty POI
source. -/
theorem attach_zero_pois_attribute_error_witness :
    attach_shop_distances envC3w dfC3 = .error .attributeError :=
  attach_zero_pois_attribute_error envC3w dfC3 rfl (by decide) rfl

/-- Claim C3 counterexample to the original wording: with zero matching
POIs the operation raises the modelled `AttributeError` — an error
different from the `NoPOIFoundError` the claim names. -/
theorem attach_zero_pois_counterexample :
    attach_shop_distances envC3c dfC3 = .error .attributeError ∧
    PyError.attributeError ≠ PyError.noPOIFoundError := by
  constructor
  · simp [attach_shop_distances, get_osm_pois, envC3c, dfC3, poiMatches, Bind.bind, Except.bind]
  · decide

/-- Claim C4 as amended: normalising a zero-variance (constant) column
does not raise any `DegenerateFeatureError` (the repository never
defines one); the division by the zero standard deviation turns every
cell of that column into `NaN`, and the frame is returned. -/
theorem normalise_zero_variance_yields_nan (df : Frame) (features : List String) (f : String)
    (c : Rat) (n : Nat) (hn : 2 ≤ n) (hmem : f ∈ features) (hnodup : features.Nodup)
    (hcol : df.getCol f = List.replicate n (Value.q c)) :
    (normalise_numerical_features df features).getCol f = List.replicate n Value.nan := by
  induction features generalizing df with
  | nil => cases hmem
  | cons g t ih =>
    rw [List.nodup_cons] at hnodup
    rw [normalise_numerical_features, List.foldl_cons]
    rcases List.mem_cons.mp hmem with h | h
    · subst h
      rw [foldl_normaliseStep_not_mem t f hnodup.1]
      exact normaliseStep_const_col df f c n hn hcol
    · have hfg : f ≠ g := fun hEq => hnodup.1 (hEq ▸ h)
      have hkeep : (normaliseStep df g).getCol f = List.replicate n (Value.q c) := by
        rw [normaliseStep, getCol_setCol_ne _ g f (Ne.symm hfg), hcol]
      exact ih (normaliseStep df g) h hnodup.2 hkeep

/-- Claim C4 witness: a constant column of three 7s comes back as three
`NaN`s. -/
theorem normalise_zero_variance_witness :
    (normalise_numerical_features (Frame.mk [("price", [Value.q 7, Value.q 7, Value.q 7])])
      ["price"]).getCol "price" = [Value.nan, Value.nan, Value.nan] :=
  normalise_zero_variance_yields_nan (Frame.mk [("price", [Value.q 7, Value.q 7, Value.q 7])])
    ["price"] "price" 7 3 (by omega) (by decide) (by decide) rfl

/-- Claim C4 counterexample to the original wording: on a zero-variance
column the operation returns a frame containing `NaN` values instead of
failing with `DegenerateFeatureError`. -/
theorem normalise_zero_variance_counterexample :
    (normalise_numerical_features (Frame.mk [("price", [Value.q 5, Value.q 5])])
      ["price"]).getCol "price" = [Value.nan, Value.nan] :=
  normaliseStep_const_col (Frame.mk [("price", [Value.q 5, Value.q 5])]) "price" 5 2
    (by omega) rfl

/-- Claim C5: the schema validator rejects a record with price −1, a
record with property_type "X" and a record with latitude 90, and accepts
(returning the frame) a record with price 250000, property_type "D",
latitude 52.2 and longitude 0.12, all other columns conforming. -/
theorem schema_examples :
    validate_prices_data (recordsToFrame [{ baseRec with price := -1 }]) =
      .error (.schemaError "price") ∧
    validate_prices_data (recordsToFrame [{ baseRec with property_type := "X" }]) =
      .error (.schemaError "property_type") ∧
    validate_prices_data (recordsToFrame [{ baseRec with latitude := 90 }]) =
      .error (.schemaError "latitude") ∧
    validate_prices_data (recordsToFrame [baseRec]) = .ok (recordsToFrame [baseRec]) := by
  have hPost : checkPostcode (Value.s "CB2 1TN") = true := by decide
  have hLat : checkLat (Value.q 52.2) = true := by
    simp only [checkLat, decide_eq_true_eq]
    norm_num
  have hLat90 : checkLat (Value.q 90) = false := by
    simp only [checkLat, decide_eq_true_eq]
    norm_num
  have hLon : checkLon (Value.q 0.12) = true := by
    simp only [checkLon, decide_eq_true_eq]
    norm_num
  refine ⟨?_, ?_, ?_, ?_⟩ <;>
    simp [validate_prices_data, _prices_coordinates_data_schema, baseRec, recordsToFrame,
      Frame.getCol, Frame.hasCol, colLookup, checkPrice, checkDate, checkIsin,
      checkStr, checkStrNullable, checkDbId, optS, hPost, hLat, hLat90, hLon, List.find?]

/-- Claim C6 as amended: the accepted price range is the closed interval
[0, 1e9] — pandera's `in_range(0, 10e8)` includes both endpoints — so
every integer price between 0 and 1000000000 inclusive passes
validation on an otherwise conforming record. -/
theorem price_range_closed (p : Int) (h0 : 0 ≤ p) (h1 : p ≤ 1000000000) :
    validate_prices_data (recordsToFrame [priceRec p]) = .ok (recordsToFrame [priceRec p]) := by
  have hPost : checkPostcode (Value.s "CB2 1TN") = true := by decide
  have hLat : checkLat (Value.q 52.2) = true := by
    simp only [checkLat, decide_eq_true_eq]
    norm_num
  have hLon : checkLon (Value.q 0.12) = true := by
    simp only [checkLon, decide_eq_true_eq]
    norm_num
  have hP : checkPrice (Value.i p) = true := by
    simp [checkPrice]
    exact ⟨h0, h1⟩
  simp [validate_prices_data, _prices_coordinates_data_schema, priceRec, recordsToFrame,
    Frame.getCol, Frame.hasCol, colLookup, checkDate, checkIsin,
    checkStr, checkStrNullable, checkDbId, optS, hP, hPost, hLat, hLon, List.find?]

/-- Claim C6 witness: price 999999999 passes. -/
theorem price_range_closed_witness :
    validate_prices_data (recordsToFrame [priceRec 999999999]) =
      .ok (recordsToFrame [priceRec 999999999]) :=
  price_range_closed 999999999 (by decide) (by decide)

/-- Claim C6 counterexample to the original wording: a record with price
exactly 1e9 is accepted by the validator, not rejected. -/
theorem price_one_billion_accepted :
    validate_prices_data (recordsToFrame [priceRec 1000000000]) =
      .ok (recordsToFrame [priceRec 1000000000]) := by
  have hPost : checkPostcode (Value.s "CB2 1TN") = true := by decide
  have hLat : checkLat (Value.q 52.2) = true := by
    simp only [checkLat, decide_eq_true_eq]
    norm_num
  have hLon : checkLon (Value.q 0.12) = true := by
    simp only [checkLon, decide_eq_true_eq]
    norm_num
  simp [validate_prices_data, _prices_coordinates_data_schema, priceRec, recordsToFrame,
    Frame.getCol, Frame.hasCol, colLookup, checkPrice, checkDate, checkIsin,
    checkStr, checkStrNullable, checkDbId, optS, hPost, hLat, hLon, List.find?]

/-- Claim C7: encoding a string column assigns each observed value the
integer code equal to its rank in the lexicographic ordering of the
distinct observed values (the number of distinct observed values
strictly below it), and two columns observing the same set of values
derive the same category list, hence the same value-to-code mapping. -/
theorem encode_assigns_lexicographic_ranks (df : Frame) (f : String) (col col2 : List String)
    (hcol : df.getCol f = col.map Value.s)
    (hmem : ∀ v, v ∈ col ↔ v ∈ col2) :
    (encode_categorical_features df [f]).getCol f =
      col.map (fun v => Value.i ((col.dedup.filter (fun w => decide (w < v))).length : Int)) ∧
    categories col = categories col2 := by
  constructor
  · have h1 : encode_categorical_features df [f] = encodeStep df f := rfl
    rw [h1, encodeStep, getCol_setCol_self, hcol]
    have h2 : (col.map Value.s).map valToStr = col := by
      rw [List.map_map]
      exact List.map_id'' (fun x => rfl) col
    rw [encodeColumn, h2, cat_codes, List.map_map]
    apply List.map_congr_left
    intro v hv
    simp only [Function.comp]
    rw [categories_indexOf_eq_rank col v hv]
  · exact categories_eq_of_mem_iff col col2 hmem

/-- Claim C7 witness: the column ["S", "D", "S"] is encoded as
[1, 0, 1], and its category list agrees with that of ["D", "S"]. -/
theorem encode_ranks_witness :
    (encode_categorical_features (Frame.mk [("property_type", [.s "S", .s "D", .s "S"])])
        ["property_type"]).getCol "property_type" = [Value.i 1, Value.i 0, Value.i 1] ∧
    categories ["S", "D", "S"] = categories ["D", "S"] := by
  have h := encode_assigns_lexicographic_ranks
    (Frame.mk [("property_type", [.s "S", .s "D", .s "S"])]) "property_type"
    ["S", "D", "S"] ["D", "S"] rfl (by intro v; simp; tauto)
  have hDS : (decide ("D" < "S")) = true := by
    rw [decide_eq_true_eq, String.lt_iff_toList_lt]
    decide
  have hSS : (decide ("S" < "S")) = false := by simp
  have hDD : (decide ("D" < "D")) = false := by simp
  have hSD : (decide ("S" < "D")) = false := by
    rw [decide_eq_false_iff_not, String.lt_iff_toList_lt]
    decide
  refine ⟨?_, h.2⟩
  have h1 := h.1
  simp only [List.dedup_cons_of_mem, List.dedup_cons_of_not_mem, List.mem_cons,
    List.mem_singleton, List.not_mem_nil, List.dedup_nil, List.map_cons, List.map_nil,
    List.filter_cons, List.filter_nil, hDS, hSS, hDD, hSD] at h1
  simpa using h1

/-- Claim C8: a validation MAE above the fixed threshold is advisory
only — when the training frame is built and the predict step succeeds,
`predict_price` returns the point estimate, with at most a logged
warning; whereas any fetch/validate/enrich failure while building the
training frame aborts the pipeline with that error and no prediction. -/
theorem mae_advisory_and_early_failures_abort (env : Env) (split : Frame → Frame × Frame)
    (fitImpl : Frame → Frame → Model) (latitude longitude : Rat) (date : Int)
    (property_type : String) (df : Frame) (p : Rat) (e : PyError) :
    (training_data env latitude longitude date = .ok df →
      make_prediction env (train_model fitImpl (split df).1) latitude longitude property_type
        = .ok p →
      predict_price env split fitImpl latitude longitude date property_type =
        .ok (p, if maeExceeds (validate_model (train_model fitImpl (split df).1) (split df).2)
                then [maeWarning] else [])) ∧
    (training_data env latitude longitude date = .error e →
      predict_price env split fitImpl latitude longitude date property_type = .error e) := by
  constructor
  · intro h1 h2
    simp [predict_price, h1, h2, Bind.bind, Except.bind]
  · intro h1
    simp [predict_price, h1, Bind.bind, Except.bind]

/-- Claim C8 witness: over `envW` the validation MAE (250000) exceeds
the threshold, a warning is logged, and the prediction is still
returned; over the unreachable store the pipeline aborts with the fetch
error. -/
theorem mae_advisory_witness :
    predict_price envW splitW fitW 52 0 19000 "D" = .ok (0, [maeWarning]) ∧
    predict_price envDown splitW fitW 52 0 19000 "D" = .error .attributeError := by
  constructor
  · have h := (mae_advisory_and_early_failures_abort envW splitW fitW 52 0 19000 "D" dfW 0
      .attributeError).1 dfW_training predict_envW
    rw [mae_envW] at h
    simpa using h
  · exact (mae_advisory_and_early_failures_abort envDown splitW fitW 52 0 19000 "D" dfW 0
      .attributeError).2 training_envDown

/-- Claim C9 as amended: when the backing store is unreachable,
`create_connection` catches the driver's connection error, logs it and
returns `None`; the fetch then continues into `execute_query`, where
using the `None` connection raises `AttributeError`, which propagates
through `predict_price`; no records are returned. -/
theorem unreachable_store_attribute_error (env : Env) (hdown : env.storeUp = false)
    (split : Frame → Frame × Frame) (fitImpl : Frame → Frame → Model)
    (north south east west latitude longitude : Rat) (sd ed date : Int)
    (property_type : String) :
    create_connection env = none ∧
    data env north south east west sd ed = .error .attributeError ∧
    predict_price env split fitImpl latitude longitude date property_type =
      .error .attributeError := by
  have h1 : create_connection env = none := by simp [create_connection, hdown]
  refine ⟨h1, ?_, ?_⟩
  · simp [data, h1, execute_query, Bind.bind, Except.bind]
  · simp [predict_price, training_data, data, h1, execute_query, Bind.bind, Except.bind]

/-- Claim C9 witness: the concrete unreachable world. -/
theorem unreachable_store_attribute_error_witness :
    create_connection envDown = none ∧
    data envDown 53 51 1 (-1) 18832 19168 = .error .attributeError ∧
    predict_price envDown (fun d => (d, d)) (fun _ _ _ => [0]) 52 0 19000 "D" =
      .error .attributeError :=
  unreachable_store_attribute_error envDown rfl (fun d => (d, d)) (fun _ _ _ => [0])
    53 51 1 (-1) 52 0 18832 19168 19000 "D"

/-- Claim C9 counterexample to the original wording: the error the fetch
fails with is the modelled `AttributeError` from using the `None`
connection, not `ConnectionError` — that one was caught and logged
inside `create_connection`. -/
theorem unreachable_store_counterexample :
    data envDown 53 51 1 (-1) 18832 19168 = .error .attributeError ∧
    PyError.attributeError ≠ PyError.connectionError := by
  constructor
  · simp [data, envDown, create_connection, execute_query, Bind.bind, Except.bind]
  · decide

/-- Claim C10: both assess functions first copy the frame object and
mutate only the copy: after either call the caller's frame object is
unchanged in the heap, and the returned object holds exactly the value
the pure (value-semantics) function computes from the original. -/
theorem copy_then_mutate_leaves_argument_unchanged (h : PyHeap) (a : Nat)
    (features : List String) (ha : a < h.frames.length) :
    (encode_categorical_features_state h a features).1.get a = h.get a ∧
    (encode_categorical_features_state h a features).1.get
        (encode_categorical_features_state h a features).2 =
      encode_categorical_features (h.get a) features ∧
    (normalise_numerical_features_state h a features).1.get a = h.get a ∧
    (normalise_numerical_features_state h a features).1.get
        (normalise_numerical_features_state h a features).2 =
      normalise_numerical_features (h.get a) features := by
  have hne : h.frames.length ≠ a := by omega
  have hlt : h.frames.length < (PyHeap.mk (h.frames ++ [h.get a])).frames.length := by
    simp
  refine ⟨?_, ?_, ?_, ?_⟩
  · rw [encode_categorical_features_state]
    simp only [PyHeap.alloc]
    rw [mutateLoop_get_ne _ _ _ _ hne, PyHeap_get_append h a ha]
  · rw [encode_categorical_features_state]
    simp only [PyHeap.alloc]
    rw [mutateLoop_get_self _ _ _ _ hlt]
    have hbase : (PyHeap.mk (h.frames ++ [h.get a])).get h.frames.length = h.get a := by
      simp [PyHeap.get, List.getD]
    rw [hbase, encode_categorical_features]
  · rw [normalise_numerical_features_state]
    simp only [PyHeap.alloc]
    rw [mutateLoop_get_ne _ _ _ _ hne, PyHeap_get_append h a ha]
  · rw [normalise_numerical_features_state]
    simp only [PyHeap.alloc]
    rw [mutateLoop_get_self _ _ _ _ hlt]
    have hbase : (PyHeap.mk (h.frames ++ [h.get a])).get h.frames.length = h.get a := by
      simp [PyHeap.get, List.getD]
    rw [hbase, normalise_numerical_features]

/-- Claim C10 witness: a concrete one-object heap. -/
theorem copy_then_mutate_witness :
    (encode_categorical_features_state (PyHeap.mk [dfSel]) 0 ["property_type"]).1.get 0
      = (PyHeap.mk [dfSel]).get 0 ∧
    (encode_categorical_features_state (PyHeap.mk [dfSel]) 0 ["property_type"]).1.get
        (encode_categorical_features_state (PyHeap.mk [dfSel]) 0 ["property_type"]).2
      = encode_categorical_features ((PyHeap.mk [dfSel]).get 0) ["property_type"] ∧
    (normalise_numerical_features_state (PyHeap.mk [dfSel]) 0 ["property_type"]).1.get 0
      = (PyHeap.mk [dfSel]).get 0 ∧
    (normalise_numerical_features_state (PyHeap.mk [dfSel]) 0 ["property_type"]).1.get
        (normalise_numerical_features_state (PyHeap.mk [dfSel]) 0 ["property_type"]).2
      = normalise_numerical_features ((PyHeap.mk [dfSel]).get 0) ["property_type"] :=
  copy_then_mutate_leaves_argument_unchanged (PyHeap.mk [dfSel]) 0 ["property_type"]
    (by decide)
